import Mathlib

/-!
Shallow embedding of the process-supervision and checkpoint-durability core of
the distributed-training supervisor: the JobManager status/log operations
(src/api/job_manager.py), the coordinator restart loop (src/demo/coordinator.py)
and the worker checkpoint store and shard assignment (src/demo/worker.py).
Machine integers are modelled as Int/Nat (Python ints are unbounded), file
contents as lists of bytes or structured records, and the filesystem as
explicit maps passed through each operation.
-/

namespace DistTrain

/-! Substring containment, modelling Python's `needle in haystack` on str. -/

/-- Boolean test that the first list is an initial segment of the second. -/
def isPrefixL : List Char → List Char → Bool
  | [], _ => true
  | _ :: _, [] => false
  | a :: as, b :: bs => a == b && isPrefixL as bs

/-- Boolean test that `needle` occurs contiguously inside `hay`,
modelling Python's `needle in hay` for strings. -/
def containsSub (needle : List Char) : List Char → Bool
  | [] => isPrefixL needle []
  | hay@(_ :: rest) => isPrefixL needle hay || containsSub needle rest

/-! # Log tail channel: `JobManager.read_new_log_bytes`
(src/api/job_manager.py lines 268-279).  The log file is a list of bytes;
the job's existence and the log file's existence are booleans.  The decode
step (`errors="replace"`) is a representation change on the returned slice
and is not modelled; the returned value is the byte slice itself. -/

/-- Embedding of `JobManager.read_new_log_bytes(job_id, offset)`:
`jobKnown`/`logExists` model `self.get_job(job_id)` and `log_path.exists()`;
`data` is the full current content of the log file. -/
def read_new_log_bytes (jobKnown logExists : Bool) (data : List Nat)
    (offset : Nat) : List Nat × Nat :=
  if !jobKnown || !logExists then ([], offset)
  else if data.length ≤ offset then ([], offset)
  else (data.drop offset, data.length)

/-- Successive reads of a fixed log: starting at `offset`, perform `n` reads,
each continuing from the returned offset, and concatenate the returned
chunks. -/
def concatReads (data : List Nat) : Nat → Nat → List Nat
  | _, 0 => []
  | offset, n + 1 =>
      let r := read_new_log_bytes true true data offset
      r.1 ++ concatReads data r.2 n

/-! # Worker resume clamp (src/demo/worker.py lines 180-182):
`state["shard_idx"] = min(int(state.get("shard_idx", 0)), len(shards) - 1)`
`state["line_idx"]  = max(int(state.get("line_idx", 0)), 0)` -/

/-- Embedding of the two clamp assignments in `worker.main` before the shard
loop.  `nshards` is `len(shards)`; the loaded values are arbitrary ints. -/
def clampResume (nshards : Nat) (shard_idx line_idx : Int) : Int × Int :=
  (min shard_idx ((nshards : Int) - 1), max line_idx 0)

/-! # Coordinator main loop (src/demo/coordinator.py lines 76-164).

Each worker slot is a `WorkerProc(rank, proc, restarts)`.  Process behaviour
is abstracted by an environment `behavior : rank → spawn index → exit code`:
the i-th spawn of a rank eventually exits with that code, and `poll()` on an
exited process returns its exit code on every later call.  A poll pass of the
`while True:` body visits every tracked slot in insertion order; whether a
still-running process delays a pass only stretches time, so the model lets
every poll observe the (fixed) exit code of the slot's current process.
Printed lines are collected in order; `main` returning from the loop is a
process exit with code 0 (signal handling is out of scope of the claims). -/

/-- One tracked worker slot: `restarts` is `WorkerProc.restarts`, `spawn`
numbers the current process of this rank (0 for the initial spawn). -/
structure WSlot where
  restarts : Nat
  spawn : Nat
deriving DecidableEq, Repr

/-- Coordinator configuration: `WORLD_SIZE`, `MAX_RESTARTS_PER_WORKER`, and
the exit code of the i-th spawn of each rank. -/
structure CoordCfg where
  worldSize : Nat
  maxRestarts : Nat
  behavior : Nat → Nat → Int

/-- Handling of one exited slot inside the poll pass (coordinator.py lines
130-157): exit 0 removes the slot; non-zero at the cap leaves it tracked
unchanged; otherwise the slot is respawned with `restarts` incremented. -/
def pollSlot (cfg : CoordCfg) (rank : Nat) (w : WSlot) :
    Option WSlot × List String :=
  let code := cfg.behavior rank w.spawn
  let header := s!"[coord] worker rank={rank} exited code={code}"
  if code = 0 then
    (none, [header, s!"[coord] rank={rank} completed (exit 0). Marking DONE."])
  else if cfg.maxRestarts ≤ w.restarts then
    (some w,
     [header, s!"[coord] rank={rank} max restarts hit; leaving it dead (demo)."])
  else
    (some { restarts := w.restarts + 1, spawn := w.spawn + 1 },
     [header,
      s!"[coord] restarting rank={rank} (attempt {w.restarts + 1}/{cfg.maxRestarts})..."])

/-- One full poll pass over the tracked slots, in order, returning the slots
still tracked afterwards and the lines printed during the pass. -/
def pollPass (cfg : CoordCfg) : List (Nat × WSlot) →
    List (Nat × WSlot) × List String
  | [] => ([], [])
  | (rank, w) :: rest =>
      let r := pollSlot cfg rank w
      let tail := pollPass cfg rest
      match r.1 with
      | none => (tail.1, r.2 ++ tail.2)
      | some w' => ((rank, w') :: tail.1, r.2 ++ tail.2)

/-- The `while True:` monitor loop with explicit fuel: each iteration polls
every tracked slot, then tests `len(workers) == 0`; when the set is empty it
prints the completion line and `main` returns (process exit 0).  `none`
means the loop has not terminated within `fuel` iterations. -/
def coordLoop (cfg : CoordCfg) :
    Nat → List (Nat × WSlot) → List String → Option (Int × List String)
  | 0, _, _ => none
  | fuel + 1, ws, log =>
      let p := pollPass cfg ws
      let log' := log ++ p.2
      if p.1.isEmpty then
        some (0, log' ++ ["[coord] all workers DONE. Job COMPLETED."])
      else coordLoop cfg fuel p.1 log'

/-- Initial tracked slots: ranks `0 .. worldSize-1`, each freshly spawned
(coordinator.py lines 84-87). -/
def initSlots (worldSize : Nat) : List (Nat × WSlot) :=
  (List.range worldSize).map fun r => (r, { restarts := 0, spawn := 0 })

/-- A run of the coordinator from startup with the given fuel. -/
def coordRun (cfg : CoordCfg) (fuel : Nat) : Option (Int × List String) :=
  coordLoop cfg fuel (initSlots cfg.worldSize) []

/-! # JobManager status resolution (src/api/job_manager.py lines 168-199).

Only the fields of the persisted index entry that `status` reads or writes
(`status`, `exit_code`) are modelled; `_patch_index` overwrites both in every
branch that writes (the `ended_at` timestamp is not modelled).  The OS is an
environment giving pid liveness (`psutil` probe) and the job's log file. -/

/-- The in-memory `Job.proc` field as `status` sees it: `absent` after an
API restart (`proc is None`), else a live handle whose `poll()` returns
nothing, or a handle whose process exited with a code. -/
inductive ProcHandle where
  | absent
  | live
  | exited (code : Int)
deriving DecidableEq, Repr

/-- The persisted index entry fields read/written by `status`. -/
structure IndexEntry where
  status : Option String
  exitCode : Option Int
deriving DecidableEq, Repr

/-- The in-memory `Job` record fields used by `status`. -/
structure JobRec where
  proc : ProcHandle
  pid : Option Nat
deriving DecidableEq, Repr

/-- OS environment for one `status` call: pid liveness
(`_pid_alive`: running and not a zombie) and the job's log file. -/
structure OsEnv where
  pidAlive : Nat → Bool
  logExists : Bool
  logContent : String

/-- Embedding of `JobManager._log_indicates_completed` (job_manager.py lines
82-90): the log file exists and contains one of the completion sentinels. -/
def log_indicates_completed (env : OsEnv) : Bool :=
  env.logExists &&
    (containsSub "Job COMPLETED.".data env.logContent.data ||
     containsSub "all workers DONE. Job COMPLETED.".data env.logContent.data)

/-- The dict returned by `JobManager.status` (minus the echoed `job_id`). -/
structure StatusResult where
  status : String
  exitCode : Option Int
  note : Option String
deriving DecidableEq, Repr

/-- Embedding of `JobManager.status(job_id)` (job_manager.py lines 168-199):
`job` is `self.jobs.get(job_id)`, `entry` the persisted index entry for this
job.  Returns the result dict and the index entry after the call (equal to
`entry` when the call does not write the index). -/
def statusOp (job : Option JobRec) (entry : IndexEntry) (env : OsEnv) :
    StatusResult × IndexEntry :=
  match job with
  | none => ({ status := "NOT_FOUND", exitCode := none, note := none }, entry)
  | some j =>
    match j.proc with
    | .live => ({ status := "RUNNING", exitCode := none, note := none }, entry)
    | .exited code =>
        let final := if code = 0 then "COMPLETED" else "FAILED"
        ({ status := final, exitCode := some code, note := none },
         { status := some final, exitCode := some code })
    | .absent =>
        if (j.pid.map env.pidAlive).getD false then
          ({ status := "RUNNING", exitCode := none,
             note := some "reattached via PID" }, entry)
        else if log_indicates_completed env then
          ({ status := "COMPLETED", exitCode := some 0,
             note := some "inferred from logs" },
           { status := some "COMPLETED", exitCode := some 0 })
        else
          ({ status := "FAILED", exitCode := none,
             note := some "PID not running; completion not found in logs" },
           { status := some "FAILED", exitCode := none })

/-- The `Job` record the `JobManager` constructor rebuilds from a persisted
index entry after an API restart (`_load_from_disk`, job_manager.py lines
57-67): the `proc` handle is gone, only the pid survives. -/
def reloadJob (pid : Option Nat) : JobRec :=
  { proc := .absent, pid := pid }

/-! # Checkpoint store (src/demo/worker.py lines 36-118).

A worker state is the dict written to `state.json`; a stored `state.json`
may miss fields (older formats), so the stored form has every field optional
and `load_checkpoint` fills defaults with `setdefault`.  The per-worker
checkpoint tree `JOB_DIR` is modelled as: the content of the `LATEST` file
(if present) and, per step-directory basename, the content of its
`state.json` and `manifest.json`.  A step directory published by the commit
protocol always contains its `state.json`, so directory existence is
identified with the presence of `state.json` (the `final_dir.exists()` test
in `save_checkpoint`).  The temporary directory of a commit is renamed away
or deleted before the call returns and never observable afterwards, so it
does not appear in the final filesystem state. -/

/-- A complete worker state dict (all fields present), as built by the worker
and passed to `save_checkpoint`. -/
structure WState where
  step : Int
  rank : Int
  world_size : Int
  shard_idx : Int
  line_idx : Int
  model_state : Option String
deriving DecidableEq, Repr

/-- The content of a `state.json` file: every field may be missing
(`load_checkpoint` applies backward-compatible defaults). -/
structure WStateJson where
  step : Option Int
  rank : Option Int
  world_size : Option Int
  shard_idx : Option Int
  line_idx : Option Int
  model_state : Option (Option String)
deriving DecidableEq, Repr

/-- Serialization `json.dump(state)` of a complete state: every field is
present in the file. -/
def toJsonState (s : WState) : WStateJson :=
  { step := some s.step, rank := some s.rank, world_size := some s.world_size,
    shard_idx := some s.shard_idx, line_idx := some s.line_idx,
    model_state := some s.model_state }

/-- The `setdefault` block of `load_checkpoint` (worker.py lines 56-62):
missing fields are filled with the same defaults the initial state uses. -/
def fillDefaults (rankEnv worldEnv : Int) (j : WStateJson) : WState :=
  { step := j.step.getD 0, rank := j.rank.getD rankEnv,
    world_size := j.world_size.getD worldEnv,
    shard_idx := j.shard_idx.getD 0, line_idx := j.line_idx.getD 0,
    model_state := j.model_state.getD none }

/-- The content of a `manifest.json` file (worker.py lines 93-99). -/
structure Manifest where
  step : Int
  timestamp : Int
  rank : Int
  world_size : Int
  committed : Bool
deriving DecidableEq, Repr

/-- The per-worker checkpoint directory `JOB_DIR`: the `LATEST` pointer file
and the `state.json` / `manifest.json` contents of each step directory,
keyed by directory basename. -/
structure CkptFS where
  latest : Option String
  states : String → Option WStateJson
  manifests : String → Option Manifest

/-- Basename of the final directory for a step (`f"step_{step}"`). -/
def stepDirName (step : Int) : String := "step_" ++ toString step

/-- The initial state returned by `load_checkpoint` when `LATEST` is absent
(worker.py lines 37-45). -/
def initState (rankEnv worldEnv : Int) : WState :=
  { step := 0, rank := rankEnv, world_size := worldEnv,
    shard_idx := 0, line_idx := 0, model_state := none }

/-- Embedding of `load_checkpoint()` (worker.py lines 36-64): if `LATEST` is
absent return the initial state; else read the named directory's
`state.json`; a missing `state.json` raises
`RuntimeError("LATEST points to missing checkpoint")`, modelled as `.error`. -/
def load_checkpoint (rankEnv worldEnv : Int) (fs : CkptFS) :
    Except String WState :=
  match fs.latest with
  | none => .ok (initState rankEnv worldEnv)
  | some name =>
    match fs.states name with
    | none => .error "LATEST points to missing checkpoint"
    | some j => .ok (fillDefaults rankEnv worldEnv j)

/-- Embedding of `save_checkpoint(state)` (worker.py lines 75-118) acting on
the checkpoint tree: if the final directory already exists, only `LATEST` is
rewritten; otherwise the state and manifest are written into a fresh
temporary directory, the directory is atomically renamed into place, and
`LATEST` is overwritten with the final basename.  `ts` is the wall-clock
timestamp recorded in the manifest. -/
def save_checkpoint (ts : Int) (s : WState) (fs : CkptFS) : CkptFS :=
  let name := stepDirName s.step
  if (fs.states name).isSome then
    { fs with latest := some name }
  else
    { latest := some name,
      states := fun k => if k = name then some (toJsonState s) else fs.states k,
      manifests := fun k =>
        if k = name then
          some { step := s.step, timestamp := ts, rank := s.rank,
                 world_size := s.world_size, committed := true }
        else fs.manifests k }

/-! # Shard assignment (src/demo/worker.py lines 121-137, local-filesystem
branch).  `DATASET_DIR.glob("shard_*.txt")` returns the directory entries
matching the pattern (in arbitrary order); `sorted(...)` orders the paths
lexicographically by name (all share the same parent directory); the rank
filter keeps names whose parsed index is congruent to `RANK` modulo
`WORLD_SIZE`.  Python's `int(...)` on the piece between the first and second
underscore of the stem is modelled by `String.toInt?`; the worker raises
(and exits non-zero) on names where the parse fails, so claims quantify over
directories whose matching names all parse. -/

/-- Boolean match of a filename against the glob pattern `shard_*.txt`. -/
def matchesShardGlob (name : String) : Bool :=
  isPrefixL "shard_".data name.data &&
    isPrefixL ".txt".data.reverse name.data.reverse

/-- Splitting a character list at every occurrence of `sep`, modelling
Python's `str.split(sep)` (which never drops pieces and yields one more
piece than there are separators). -/
def splitOnChar (sep : Char) : List Char → List (List Char)
  | [] => [[]]
  | a :: rest =>
    let r := splitOnChar sep rest
    if a = sep then [] :: r
    else
      match r with
      | [] => [[a]]
      | piece :: more => (a :: piece) :: more

/-- Python's `int(...)` on a non-empty all-digit string (leading zeros
allowed); `none` models the `ValueError` on anything else. -/
def parseNatChars (cs : List Char) : Option Nat :=
  if cs = [] then none
  else if cs.all (fun c => c.isDigit) then
    some (cs.foldl (fun acc c => acc * 10 + (c.toNat - 48)) 0)
  else none

/-- Python's `int(...)` including a leading minus sign. -/
def parseIntChars (cs : List Char) : Option Int :=
  match cs with
  | '-' :: rest => (parseNatChars rest).map (fun n => -(n : Int))
  | _ => (parseNatChars cs).map (fun n => (n : Int))

/-- Embedding of `shard_index` (worker.py lines 134-135):
`int(path.stem.split("_")[1])`.  The stem drops the `.txt` suffix (the only
suffix of a glob-matching name); the second `split("_")` piece is parsed as
an int; `none` models a `ValueError` from `int(...)`. -/
def shard_index (name : String) : Option Int :=
  let stem := name.data.take (name.data.length - 4)
  match (splitOnChar '_' stem).get? 1 with
  | none => none
  | some piece => parseIntChars piece

/-- Total version of `shard_index` used inside the rank filter; claims carry
the hypothesis that every matching name parses, making the default dead. -/
def shardIndexD (name : String) : Int := (shard_index name).getD 0

/-- Lexicographic comparison of names by code point, modelling how Python
compares the strings underlying same-directory `Path`s in `sorted(...)`. -/
def lexLe : List Char → List Char → Bool
  | [], _ => true
  | _ :: _, [] => false
  | a :: as, b :: bs => if a = b then lexLe as bs else decide (a < b)

/-- The ordering `sorted(...)` uses on same-directory paths. -/
def strLe (a b : String) : Prop := lexLe a.data b.data = true

instance : DecidableRel strLe := fun a b => instDecidableEqBool _ _

/-- Embedding of `assigned_shards()` (worker.py lines 130-137, local branch):
glob-filter, sort lexicographically, keep the names whose shard index is
congruent to `rank` modulo `worldSize`.  `files` is the directory listing. -/
def assigned_shards (worldSize rank : Int) (files : List String) :
    List String :=
  let matched := files.filter matchesShardGlob
  let sortedShards := List.insertionSort strLe matched
  sortedShards.filter fun n => shardIndexD n % worldSize == rank

/-! ## Helper lemmas -/

/-- Reading at or past the end of the log yields nothing, so any number of
further reads contributes nothing. -/
theorem concatReads_of_le (data : List Nat) (offset : Nat)
    (h : data.length ≤ offset) : ∀ n, concatReads data offset n = [] := by
  intro n
  induction n with
  | zero => rfl
  | succ m ih =>
      simp only [concatReads, read_new_log_bytes, Bool.not_true, Bool.false_or,
        Bool.false_eq_true, if_neg, if_pos h]
      simpa using ih

/-! ## Claims about the log tail channel -/

/-- Claim C7: for an existing log file of content `data`, reading at any
offset at or past the file size returns the empty chunk and the unchanged
offset, and the concatenation of any positive number of successive reads
starting from offset 0 (each continuing from the returned offset) equals the
full file content. -/
theorem read_new_log_bytes_spec (data : List Nat) :
    (∀ offset, data.length ≤ offset →
      read_new_log_bytes true true data offset = ([], offset)) ∧
    (∀ n, 1 ≤ n → concatReads data 0 n = data) := by
  constructor
  · intro offset h
    simp [read_new_log_bytes, h]
  · intro n hn
    cases n with
    | zero => exact absurd hn (by decide)
    | succ m =>
      by_cases hd : data.length ≤ 0
      · have hnil : data = [] := List.eq_nil_of_length_eq_zero (Nat.le_zero.mp hd)
        subst hnil
        exact concatReads_of_le [] 0 le_rfl (m + 1)
      · have hread : read_new_log_bytes true true data 0 = (data, data.length) := by
          simp [read_new_log_bytes, hd]
        rw [show concatReads data 0 (m + 1) =
              (read_new_log_bytes true true data 0).1 ++
                concatReads data (read_new_log_bytes true true data 0).2 m from rfl,
            hread]
        simp [concatReads_of_le data data.length le_rfl m]

/-- Witness for C7 at a concrete log. -/
theorem read_new_log_bytes_spec_witness :
    read_new_log_bytes true true [10, 20, 30] 5 = ([], 5) ∧
    concatReads [10, 20, 30] 0 2 = [10, 20, 30] :=
  ⟨(read_new_log_bytes_spec [10, 20, 30]).1 5 (by decide),
   (read_new_log_bytes_spec [10, 20, 30]).2 2 (by decide)⟩

/-! ## Claims about the worker resume clamp -/

/-- Claim C9 counterexample: with 2 assigned shards, a loaded
`shard_idx = -1` passes through `min(shard_idx, len-1)` unchanged: the
resulting shard index is negative, not in `[0, len-1]` as the claim
states (`min` only clamps from above). -/
theorem clampResume_negative_not_clamped :
    (clampResume 2 (-1) 5).1 = -1 ∧ ¬ (0 ≤ (clampResume 2 (-1) 5).1) := by
  decide

/-- Claim C9 (amended): for a non-empty shard assignment, the resume
adjustment keeps a non-negative loaded `shard_idx` inside
`[0, len(assigned_shards)-1]` (a negative loaded value stays negative:
only the upper bound is clamped), and the adjusted `line_idx` is
non-negative for every loaded integer value. -/
theorem clampResume_bounds (nshards : Nat) (si li : Int)
    (hn : 1 ≤ nshards) (hsi : 0 ≤ si) :
    (0 ≤ (clampResume nshards si li).1 ∧
     (clampResume nshards si li).1 ≤ (nshards : Int) - 1) ∧
    0 ≤ (clampResume nshards si li).2 := by
  refine ⟨⟨le_min hsi ?_, min_le_right _ _⟩, le_max_right _ _⟩
  have : (1 : Int) ≤ (nshards : Int) := by exact_mod_cast hn
  omega

/-- Witness for C9's amended theorem at concrete inputs. -/
theorem clampResume_bounds_witness :
    (0 ≤ (clampResume 2 7 (-3)).1 ∧ (clampResume 2 7 (-3)).1 ≤ (2 : Int) - 1) ∧
    0 ≤ (clampResume 2 7 (-3)).2 :=
  clampResume_bounds 2 7 (-3) (by decide) (by decide)

/-! ## Claims about the checkpoint store -/

/-- Claim C5 counterexample: if the final directory `step_5` already exists
with a different published state (line_idx 7), `save_checkpoint` of a state
with line_idx 3 only rewrites `LATEST`, and the subsequent
`load_checkpoint` returns the old state, not the saved one. -/
theorem save_load_roundtrip_existing_dir_fails :
    load_checkpoint 0 1
      (save_checkpoint 0
        { step := 5, rank := 0, world_size := 1, shard_idx := 0,
          line_idx := 3, model_state := none }
        { latest := none,
          states := fun k =>
            if k = "step_5" then
              some (toJsonState
                { step := 5, rank := 0, world_size := 1, shard_idx := 0,
                  line_idx := 7, model_state := none })
            else none,
          manifests := fun _ => none }) =
      .ok { step := 5, rank := 0, world_size := 1, shard_idx := 0,
            line_idx := 7, model_state := none } ∧
    ({ step := 5, rank := 0, world_size := 1, shard_idx := 0,
       line_idx := 7, model_state := none } : WState) ≠
      { step := 5, rank := 0, world_size := 1, shard_idx := 0,
        line_idx := 3, model_state := none } := by
  constructor
  · rfl
  · decide

/-- Claim C5 (amended): when the final step directory does not already exist
(the fresh-commit path), `save_checkpoint(s)` followed by
`load_checkpoint()` returns exactly `s` (every field is written, so the
default fill-in is the identity); if `step_(s.step)` already exists, load
returns the previously published state for that step instead. -/
theorem save_load_roundtrip_fresh (ts rankE worldE : Int) (s : WState)
    (fs : CkptFS) (hfree : fs.states (stepDirName s.step) = none) :
    load_checkpoint rankE worldE (save_checkpoint ts s fs) = .ok s := by
  cases s with
  | mk step rank world_size shard_idx line_idx model_state =>
      simp [save_checkpoint, load_checkpoint, hfree, fillDefaults, toJsonState]

/-- Witness for C5's amended theorem at a concrete state and empty tree. -/
theorem save_load_roundtrip_fresh_witness :
    load_checkpoint 3 4
      (save_checkpoint 17
        { step := 10, rank := 3, world_size := 4, shard_idx := 1,
          line_idx := 2, model_state := some "m" }
        { latest := none, states := fun _ => none,
          manifests := fun _ => none }) =
      .ok { step := 10, rank := 3, world_size := 4, shard_idx := 1,
            line_idx := 2, model_state := some "m" } :=
  save_load_roundtrip_fresh 17 3 4 _ _ rfl

/-- Claim C6 counterexample: a present `LATEST` naming a directory whose
`state.json` is an empty record (every field missing, so every default
applies) makes `load_checkpoint` return exactly the initial state even
though `LATEST` exists — the "only if" direction of the claim fails. -/
theorem load_checkpoint_initial_with_latest_present :
    load_checkpoint 0 1
      { latest := some "step_0",
        states := fun k =>
          if k = "step_0" then
            some { step := none, rank := none, world_size := none,
                   shard_idx := none, line_idx := none, model_state := none }
          else none,
        manifests := fun _ => none } = .ok (initState 0 1) ∧
    ({ latest := some "step_0",
       states := fun k =>
         if k = "step_0" then
           some { step := none, rank := none, world_size := none,
                  shard_idx := none, line_idx := none, model_state := none }
         else none,
       manifests := fun _ => none } : CkptFS).latest ≠ none := by
  exact ⟨rfl, by simp⟩

/-- Claim C6 (amended): `load_checkpoint` returns the initial state (step 0,
shard_idx 0, line_idx 0, no model state) whenever the `LATEST` file is
absent (a stored state whose fields all equal the defaults also yields it);
and when `LATEST` exists but names a directory whose `state.json` is
missing, `load_checkpoint` raises a hard error instead of returning a
state. -/
theorem load_checkpoint_absent_and_missing_spec (rankE worldE : Int)
    (fs : CkptFS) :
    (fs.latest = none →
      load_checkpoint rankE worldE fs = .ok (initState rankE worldE)) ∧
    (∀ name, fs.latest = some name → fs.states name = none →
      load_checkpoint rankE worldE fs =
        .error "LATEST points to missing checkpoint") := by
  constructor
  · intro h
    simp [load_checkpoint, h]
  · intro name hl hs
    simp [load_checkpoint, hl, hs]

/-- Witness for C6's amended theorem: both branches at concrete trees. -/
theorem load_checkpoint_absent_and_missing_spec_witness :
    load_checkpoint 0 2
      { latest := none, states := fun _ => none, manifests := fun _ => none } =
      .ok (initState 0 2) ∧
    load_checkpoint 0 2
      { latest := some "step_9", states := fun _ => none,
        manifests := fun _ => none } =
      .error "LATEST points to missing checkpoint" :=
  ⟨(load_checkpoint_absent_and_missing_spec 0 2
      { latest := none, states := fun _ => none,
        manifests := fun _ => none }).1 rfl,
   (load_checkpoint_absent_and_missing_spec 0 2
      { latest := some "step_9", states := fun _ => none,
        manifests := fun _ => none }).2 "step_9" rfl rfl⟩

/-- Claim C10: when the final directory `step_(s.step)` already exists,
`save_checkpoint(s)` leaves every step directory's `state.json` and
`manifest.json` untouched and only rewrites the `LATEST` pointer to that
directory's basename: a published checkpoint directory is never modified by
a later commit for the same step. -/
theorem save_checkpoint_existing_dir_frame (ts : Int) (s : WState)
    (fs : CkptFS) (hex : (fs.states (stepDirName s.step)).isSome) :
    save_checkpoint ts s fs =
      { fs with latest := some (stepDirName s.step) } := by
  simp [save_checkpoint, hex]

/-- Witness for C10 at a concrete tree with a published `step_5`. -/
theorem save_checkpoint_existing_dir_frame_witness :
    save_checkpoint 9
      { step := 5, rank := 0, world_size := 1, shard_idx := 0,
        line_idx := 3, model_state := none }
      { latest := some "step_3",
        states := fun k =>
          if k = "step_5" then
            some (toJsonState
              { step := 5, rank := 0, world_size := 1, shard_idx := 0,
                line_idx := 7, model_state := none })
          else none,
        manifests := fun _ => none } =
      { latest := some "step_5",
        states := fun k =>
          if k = "step_5" then
            some (toJsonState
              { step := 5, rank := 0, world_size := 1, shard_idx := 0,
                line_idx := 7, model_state := none })
          else none,
        manifests := fun _ => none } :=
  save_checkpoint_existing_dir_frame 9 _ _ (by rfl)

/-! ## Claims about the coordinator loop -/

/-- A slot whose current process exited non-zero with the restart counter at
or above the cap survives a poll pass unchanged: the `continue` after the
"max restarts hit" log never removes it from tracking. -/
theorem pollPass_keeps_dead (cfg : CoordCfg) (rank : Nat) (w : WSlot)
    (hcode : cfg.behavior rank w.spawn ≠ 0)
    (hcap : cfg.maxRestarts ≤ w.restarts) :
    ∀ ws : List (Nat × WSlot), (rank, w) ∈ ws →
      (rank, w) ∈ (pollPass cfg ws).1 := by
  intro ws hmem
  induction ws with
  | nil => cases hmem
  | cons hd tl ih =>
    obtain ⟨r0, w0⟩ := hd
    rcases List.mem_cons.mp hmem with heq | htl
    · injection heq with h1 h2
      subst h1; subst h2
      simp [pollPass, pollSlot, hcode, hcap]
    · have hmem' := ih htl
      simp only [pollPass]
      rcases hslot : (pollSlot cfg r0 w0).1 with _ | w'
      · simpa [hslot] using hmem'
      · simp only [hslot]
        exact List.mem_cons_of_mem _ hmem'

/-- While some tracked slot is dead at the restart cap, the monitor loop
never reaches the empty-tracking exit: it runs out of any amount of fuel. -/
theorem coordLoop_none_of_dead (cfg : CoordCfg) (rank : Nat) (w : WSlot)
    (hcode : cfg.behavior rank w.spawn ≠ 0)
    (hcap : cfg.maxRestarts ≤ w.restarts) :
    ∀ (fuel : Nat) (ws : List (Nat × WSlot)) (log : List String),
      (rank, w) ∈ ws → coordLoop cfg fuel ws log = none := by
  intro fuel
  induction fuel with
  | zero => intro ws log _; rfl
  | succ m ih =>
    intro ws log hmem
    have hmem' := pollPass_keeps_dead cfg rank w hcode hcap ws hmem
    have hne : (pollPass cfg ws).1.isEmpty = false := by
      cases h : (pollPass cfg ws).1 with
      | nil => rw [h] at hmem'; cases hmem'
      | cons a l => rfl
    simp only [coordLoop, hne, Bool.false_eq_true, if_false]
    exact ih _ _ hmem'

/-- Claim C3 counterexample: with one worker whose process always exits 1
and a restart cap of 0, every other slot is (vacuously) resolved, yet no
amount of fuel makes the coordinator's main loop terminate — it never exits
at all, with code 1 or any other (the dead slot is left in the tracking
dict, so `len(workers) == 0` never holds). -/
theorem coordRun_capped_slot_never_exits :
    ¬ ∃ (fuel : Nat) (res : Int × List String),
      coordRun { worldSize := 1, maxRestarts := 0, behavior := fun _ _ => 1 }
        fuel = some res := by
  rintro ⟨fuel, res, h⟩
  rw [coordRun,
    coordLoop_none_of_dead _ 0 { restarts := 0, spawn := 0 } (by decide)
      (by decide) fuel _ [] (by decide)] at h
  exact Option.noConfusion h

/-- Claim C3 (amended): a slot that exits non-zero with
`restarts == MAX_RESTARTS_PER_WORKER` is left in the tracking dict forever,
so the coordinator's main loop never terminates (regardless of how the other
slots resolve) and the coordinator never exits — neither with code 1 nor any
other code; it keeps re-logging the dead slot on every poll pass instead. -/
theorem coordLoop_capped_slot_no_termination (cfg : CoordCfg) (fuel : Nat)
    (ws : List (Nat × WSlot)) (log : List String) (rank : Nat) (w : WSlot)
    (hmem : (rank, w) ∈ ws) (hcode : cfg.behavior rank w.spawn ≠ 0)
    (hcap : cfg.maxRestarts ≤ w.restarts) :
    coordLoop cfg fuel ws log = none :=
  coordLoop_none_of_dead cfg rank w hcode hcap fuel ws log hmem

/-- Witness for C3's amended theorem at a concrete configuration. -/
theorem coordLoop_capped_slot_no_termination_witness :
    coordLoop { worldSize := 2, maxRestarts := 3, behavior := fun _ _ => 2 } 7
      [(0, { restarts := 3, spawn := 3 })] [] = none :=
  coordLoop_capped_slot_no_termination _ 7 _ []
    0 { restarts := 3, spawn := 3 } (by decide) (by decide) (by decide)

/-- Claim C4 counterexample: in a run where the tracking set becomes empty
(one worker, exits 0), the coordinator prints
`[coord] all workers DONE. Job COMPLETED.` — a line that contains the
sentinel but is not literally equal to `all workers DONE. Job COMPLETED.`;
no printed line equals that literal. -/
theorem coordRun_completion_line_prefixed :
    coordRun { worldSize := 1, maxRestarts := 0, behavior := fun _ _ => 0 }
        1 =
      some (0, ["[coord] worker rank=0 exited code=0",
                "[coord] rank=0 completed (exit 0). Marking DONE.",
                "[coord] all workers DONE. Job COMPLETED."]) ∧
    "all workers DONE. Job COMPLETED." ∉
      ["[coord] worker rank=0 exited code=0",
       "[coord] rank=0 completed (exit 0). Marking DONE.",
       "[coord] all workers DONE. Job COMPLETED."] := by
  exact ⟨rfl, by decide⟩

/-- Claim C4 (amended): whenever the coordinator's monitor loop terminates —
which happens exactly when the tracking set becomes empty — it prints the
line `[coord] all workers DONE. Job COMPLETED.` (whose suffix is the literal
completion sentinel) and the coordinator exits with code 0. -/
theorem coordLoop_empty_tracking_exit_zero (cfg : CoordCfg) :
    ∀ (fuel : Nat) (ws : List (Nat × WSlot)) (log : List String)
      (ec : Int) (outlog : List String),
      coordLoop cfg fuel ws log = some (ec, outlog) →
      ec = 0 ∧ "[coord] all workers DONE. Job COMPLETED." ∈ outlog := by
  intro fuel
  induction fuel with
  | zero => intro ws log ec outlog h; cases h
  | succ m ih =>
    intro ws log ec outlog h
    simp only [coordLoop] at h
    by_cases he : (pollPass cfg ws).1.isEmpty
    · rw [if_pos he] at h
      have h2 := Option.some.inj h
      injection h2 with ha hb
      subst ha; subst hb
      exact ⟨rfl, by simp⟩
    · rw [if_neg he] at h
      exact ih _ _ _ _ h

/-- Witness for C4's amended theorem at a concrete terminating run. -/
theorem coordLoop_empty_tracking_exit_zero_witness :
    (0 : Int) = 0 ∧ "[coord] all workers DONE. Job COMPLETED." ∈
      ["[coord] worker rank=0 exited code=0",
       "[coord] rank=0 completed (exit 0). Marking DONE.",
       "[coord] all workers DONE. Job COMPLETED."] :=
  coordLoop_empty_tracking_exit_zero
    { worldSize := 1, maxRestarts := 0, behavior := fun _ _ => 0 }
    1 (initSlots 1) [] 0
    ["[coord] worker rank=0 exited code=0",
     "[coord] rank=0 completed (exit 0). Marking DONE.",
     "[coord] all workers DONE. Job COMPLETED."] rfl

/-! ## Claims about JobManager status resolution -/

/-- Claim C1 counterexample: for a known job with no in-memory handle, a
dead recorded pid and a log matching no sentinel, `status` returns `FAILED`
(not `LOST` — no branch of `JobManager.status` produces `LOST`) and writes
`status=FAILED, exit_code=null` to the persisted index entry, changing it. -/
theorem statusOp_unknown_end_returns_failed_persists :
    statusOp (some { proc := .absent, pid := some 7 })
        { status := some "RUNNING", exitCode := none }
        { pidAlive := fun _ => false, logExists := true,
          logContent := "[worker 0] step 3 | loss 0.1\n" } =
      ({ status := "FAILED", exitCode := none,
         note := some "PID not running; completion not found in logs" },
       { status := some "FAILED", exitCode := none }) ∧
    ({ status := some "FAILED", exitCode := none } : IndexEntry) ≠
      { status := some "RUNNING", exitCode := none } := by
  exact ⟨rfl, by decide⟩

/-- Claim C1 (amended): for every known job whose in-memory process handle
is absent, whose recorded pid is not a live non-zombie process, and whose
log contains neither completion sentinel (the only sentinels `status`
checks — the failure sentinels are not consulted), the status operation
returns `FAILED` with the note `PID not running; completion not found in
logs` and persists `status=FAILED` with a null `exit_code` to the job
index; `LOST` is never returned. -/
theorem statusOp_unknown_end_spec (j : JobRec) (entry : IndexEntry)
    (env : OsEnv) (hproc : j.proc = .absent)
    (hpid : ∀ p, j.pid = some p → env.pidAlive p = false)
    (hlog : log_indicates_completed env = false) :
    statusOp (some j) entry env =
      ({ status := "FAILED", exitCode := none,
         note := some "PID not running; completion not found in logs" },
       { status := some "FAILED", exitCode := none }) := by
  cases j with
  | mk proc pid =>
    cases hproc
    have hp : (pid.map env.pidAlive).getD false = false := by
      cases pid with
      | none => rfl
      | some p => simpa using hpid p rfl
    simp [statusOp, hp, hlog]

/-- Witness for C1's amended theorem at a concrete job and environment. -/
theorem statusOp_unknown_end_spec_witness :
    statusOp (some { proc := .absent, pid := some 9 })
        { status := some "RUNNING", exitCode := none }
        { pidAlive := fun _ => false, logExists := false, logContent := "" } =
      ({ status := "FAILED", exitCode := none,
         note := some "PID not running; completion not found in logs" },
       { status := some "FAILED", exitCode := none }) :=
  statusOp_unknown_end_spec _ _ _ rfl (fun p hp => by cases hp; rfl) rfl

/-- Claim C2 counterexample: a status call with a live handle that observed
exit code 0 returns `COMPLETED` and persists the terminal
`exit_code = 0`; after a JobManager restart (the handle is gone, only the
pid survives) a process alive at the recorded pid — e.g. pid reuse — makes
the next status call return `RUNNING`, although the persisted entry still
carries the terminal exit code: `status` never consults the persisted
`exit_code` when a pid probe succeeds, so `COMPLETED` is followed by
`RUNNING`. -/
theorem statusOp_completed_then_running :
    statusOp (some { proc := .exited 0, pid := some 42 })
        { status := some "RUNNING", exitCode := none }
        { pidAlive := fun p => p == 42, logExists := false, logContent := "" } =
      ({ status := "COMPLETED", exitCode := some 0, note := none },
       { status := some "COMPLETED", exitCode := some 0 }) ∧
    statusOp (some (reloadJob (some 42)))
        { status := some "COMPLETED", exitCode := some 0 }
        { pidAlive := fun p => p == 42, logExists := false, logContent := "" } =
      ({ status := "RUNNING", exitCode := none,
         note := some "reattached via PID" },
       { status := some "COMPLETED", exitCode := some 0 }) := by
  exact ⟨rfl, rfl⟩

/-- Claim C2 (amended): within a single JobManager lifetime, while the live
process handle is retained, a status call that observes the handle's exit
code persists the matching terminal status with that exit code, and every
subsequent status call returns the same result and leaves the entry
unchanged (`poll` keeps returning the same code).  After a restart, the
persisted terminal `exit_code` is not consulted: the pid probe and the log
sentinel run first, so a live process at the recorded pid yields `RUNNING`
even over a terminal entry. -/
theorem statusOp_live_handle_terminal_stable (j : JobRec)
    (entry : IndexEntry) (env : OsEnv) (c : Int)
    (hproc : j.proc = .exited c) :
    (statusOp (some j) entry env).1.status =
        (if c = 0 then "COMPLETED" else "FAILED") ∧
    (statusOp (some j) entry env).2 =
      { status := some (if c = 0 then "COMPLETED" else "FAILED"),
        exitCode := some c } ∧
    statusOp (some j) (statusOp (some j) entry env).2 env =
      statusOp (some j) entry env := by
  cases j with
  | mk proc pid =>
    cases hproc
    refine ⟨?_, ?_, ?_⟩ <;> simp [statusOp]

/-- Witness for C2's amended theorem at a concrete exited handle. -/
theorem statusOp_live_handle_terminal_stable_witness :
    (statusOp (some { proc := .exited 1, pid := some 5 })
        { status := some "RUNNING", exitCode := none }
        { pidAlive := fun _ => true, logExists := false,
          logContent := "" }).1.status =
        (if (1 : Int) = 0 then "COMPLETED" else "FAILED") ∧
    (statusOp (some { proc := .exited 1, pid := some 5 })
        { status := some "RUNNING", exitCode := none }
        { pidAlive := fun _ => true, logExists := false,
          logContent := "" }).2 =
      { status := some (if (1 : Int) = 0 then "COMPLETED" else "FAILED"),
        exitCode := some 1 } ∧
    statusOp (some { proc := .exited 1, pid := some 5 })
        (statusOp (some { proc := .exited 1, pid := some 5 })
          { status := some "RUNNING", exitCode := none }
          { pidAlive := fun _ => true, logExists := false,
            logContent := "" }).2
        { pidAlive := fun _ => true, logExists := false, logContent := "" } =
      statusOp (some { proc := .exited 1, pid := some 5 })
        { status := some "RUNNING", exitCode := none }
        { pidAlive := fun _ => true, logExists := false, logContent := "" } :=
  statusOp_live_handle_terminal_stable _ _ _ 1 rfl

/-! ## Claims about shard assignment -/

/-- Totality of the code-point order on names. -/
theorem lexLe_total (as : List Char) :
    ∀ bs, lexLe as bs = true ∨ lexLe bs as = true := by
  induction as with
  | nil => intro bs; left; rfl
  | cons a as ih =>
    intro bs
    cases bs with
    | nil => right; rfl
    | cons b bs =>
      by_cases h : a = b
      · subst h
        rcases ih bs with h1 | h1
        · left; simpa [lexLe] using h1
        · right; simpa [lexLe] using h1
      · rcases Ne.lt_or_lt h with hlt | hlt
        · left; simp [lexLe, h, hlt]
        · right; simp [lexLe, Ne.symm h, hlt]

/-- Transitivity of the code-point order on names. -/
theorem lexLe_trans (as : List Char) :
    ∀ bs cs, lexLe as bs = true → lexLe bs cs = true →
      lexLe as cs = true := by
  induction as with
  | nil => intro bs cs _ _; rfl
  | cons a as ih =>
    intro bs cs h1 h2
    cases bs with
    | nil => simp [lexLe] at h1
    | cons b bs =>
      cases cs with
      | nil => simp [lexLe] at h2
      | cons c cs =>
        by_cases hab : a = b
        · subst hab
          by_cases hac : a = c
          · subst hac
            simp only [lexLe, if_pos rfl] at h1 h2 ⊢
            exact ih bs cs h1 h2
          · simp only [lexLe, if_neg hac] at h2 ⊢
            exact h2
        · by_cases hbc : b = c
          · subst hbc
            simp only [lexLe, if_neg hab] at h1 ⊢
            exact h1
          · simp only [lexLe, if_neg hab, decide_eq_true_eq] at h1
            simp only [lexLe, if_neg hbc, decide_eq_true_eq] at h2
            have hac : a < c := lt_trans h1 h2
            simp [lexLe, ne_of_lt hac, hac]

/-- Claim C8 counterexample: `sorted()` orders paths lexicographically by
name, so in a directory holding `shard_2.txt` and `shard_10.txt` the
assignment for rank 0 of world size 1 lists shard 10 before shard 2 — the
list is not sorted in increasing order of parsed shard index. -/
theorem assigned_shards_unsorted_by_index :
    assigned_shards 1 0 ["shard_2.txt", "shard_10.txt"] =
      ["shard_10.txt", "shard_2.txt"] ∧
    shardIndexD "shard_10.txt" = 10 ∧ shardIndexD "shard_2.txt" = 2 ∧
    ¬ (shardIndexD "shard_10.txt" ≤ shardIndexD "shard_2.txt") := by
  refine ⟨rfl, rfl, rfl, by decide⟩

/-- Claim C8 (amended): for every rank, world size and directory listing in
which every name matching `shard_*.txt` parses to an index (otherwise the
worker raises), the assigned list contains exactly the matching names whose
parsed shard index is congruent to the rank modulo the world size, sorted
lexicographically by filename — which coincides with increasing shard index
only for equal-width zero-padded names such as those `make_dataset.py`
produces; the result is a deterministic function of its arguments. -/
theorem assigned_shards_spec (W R : Int) (files : List String)
    (hparse : ∀ n ∈ files, matchesShardGlob n = true →
      (shard_index n).isSome) :
    (∀ n, n ∈ assigned_shards W R files ↔
      (n ∈ files ∧ matchesShardGlob n = true ∧ shardIndexD n % W = R)) ∧
    List.Sorted strLe (assigned_shards W R files) := by
  constructor
  · intro n
    constructor
    · intro hn
      rcases List.mem_filter.mp hn with ⟨hs, hpred⟩
      rcases List.mem_filter.mp
          ((List.perm_insertionSort strLe _).mem_iff.mp hs) with ⟨hf, hglob⟩
      exact ⟨hf, hglob, by simpa using hpred⟩
    · rintro ⟨hf, hglob, hmod⟩
      refine List.mem_filter.mpr
        ⟨(List.perm_insertionSort strLe _).mem_iff.mpr
          (List.mem_filter.mpr ⟨hf, hglob⟩), by simpa using hmod⟩
  · haveI : IsTotal String strLe := ⟨fun a b => lexLe_total a.data b.data⟩
    haveI : IsTrans String strLe :=
      ⟨fun a b c => lexLe_trans a.data b.data c.data⟩
    exact List.Pairwise.filter _ (List.sorted_insertionSort strLe _)

/-- Witness for C8's amended theorem on a concrete directory listing. -/
theorem assigned_shards_spec_witness :
    (∀ n, n ∈ assigned_shards 2 1
        ["shard_00003.txt", "shard_00001.txt", "shard_00002.txt",
         "notes.txt"] ↔
      (n ∈ ["shard_00003.txt", "shard_00001.txt", "shard_00002.txt",
            "notes.txt"] ∧
       matchesShardGlob n = true ∧ shardIndexD n % 2 = 1)) ∧
    List.Sorted strLe
      (assigned_shards 2 1
        ["shard_00003.txt", "shard_00001.txt", "shard_00002.txt",
         "notes.txt"]) :=
  assigned_shards_spec 2 1 _ (by decide)

end DistTrain
